import Mathlib

/-!
Verification of the streaming response pipeline and REPL conversation
state machine of a command-line llama-API chat client (src/src/main.rs).

The Rust source is shallowly embedded: the per-chunk stream decoder
(the `write_function` closure of `individual_request_ch`), the
non-streaming request path (`individual_request`), the consumer loop and
transcript append of `request_single_message`, and the REPL command
dispatch of `request_loop` become executable Lean functions.  Byte
buffers are `List Nat` (each entry one byte), the mpsc channel is a
list of `ChannelMessage`s in send order, and `serde_json` is modelled
by a small JSON parser plus per-struct decoders that mirror the
derived serde semantics (required vs `Option` fields, unknown fields
ignored, whole-buffer parses only).
-/

namespace Llama

/-! ## Rust string trimming (`str::trim`) -/

/-- Unicode `White_Space` test used by Rust's `char::is_whitespace`. -/
def isRustWs (c : Char) : Bool :=
  let n := c.toNat
  n == 0x9 || n == 0xA || n == 0xB || n == 0xC || n == 0xD || n == 0x20 ||
  n == 0x85 || n == 0xA0 || n == 0x1680 || (0x2000 ≤ n && n ≤ 0x200A) ||
  n == 0x2028 || n == 0x2029 || n == 0x202F || n == 0x205F || n == 0x3000

/-- Rust `str::trim`: strips whitespace from both ends of the string. -/
def rustTrim (s : String) : String :=
  ⟨((s.data.dropWhile isRustWs).reverse.dropWhile isRustWs).reverse⟩

/-- Rust `str::trim_end`-style trailing-only trim.  This definition follows
the SPEC's words ("trim trailing whitespace from the accumulator"), for
comparison against the source's `rustTrim`; it is not code of the program. -/
def trimTrailingOnlySpec (s : String) : String :=
  ⟨(s.data.reverse.dropWhile isRustWs).reverse⟩

/-- Rust `str::starts_with` on a literal needle. -/
def strStartsWith (s pre : String) : Bool :=
  pre.data.isPrefixOf s.data

/-- Rust `str::ends_with` on a literal needle. -/
def strEndsWith (s suf : String) : Bool :=
  suf.data.reverse.isPrefixOf s.data.reverse

/-! ## UTF-8 encoding and strict decoding

`std::str::from_utf8` accepts exactly well-formed UTF-8: no overlong
encodings, no surrogate code points, nothing above `U+10FFFF`.  Bytes
are modelled as `Nat`s; any entry outside `0..255` simply fails to
match a valid byte pattern. -/

def utf8EncodeChar (c : Char) : List Nat :=
  let n := c.toNat
  if n < 0x80 then [n]
  else if n < 0x800 then [0xC0 + n / 0x40, 0x80 + n % 0x40]
  else if n < 0x10000 then
    [0xE0 + n / 0x1000, 0x80 + (n / 0x40) % 0x40, 0x80 + n % 0x40]
  else
    [0xF0 + n / 0x40000, 0x80 + (n / 0x1000) % 0x40,
     0x80 + (n / 0x40) % 0x40, 0x80 + n % 0x40]

/-- The UTF-8 bytes of a string, as the transport would deliver them. -/
def strBytes (s : String) : List Nat :=
  s.data.flatMap utf8EncodeChar

/-- Is `b` a UTF-8 continuation byte (`10xxxxxx`)? -/
def isCont (b : Nat) : Bool := 0x80 ≤ b && b < 0xC0

/-- Decode one UTF-8 scalar value from the front of the byte list.
Returns the code point and the remaining bytes, or `none` on malformed
input (including overlong forms, surrogates, and values past `U+10FFFF`). -/
def utf8DecodeOne : List Nat → Option (Nat × List Nat)
  | [] => none
  | b :: rest =>
    if b < 0x80 then some (b, rest)
    else if b < 0xC2 then none
    else if b < 0xE0 then
      match rest with
      | b2 :: rest2 =>
        if isCont b2 then some ((b - 0xC0) * 0x40 + (b2 - 0x80), rest2) else none
      | _ => none
    else if b < 0xF0 then
      match rest with
      | b2 :: b3 :: rest3 =>
        if isCont b2 && isCont b3 &&
           (b != 0xE0 || b2 ≥ 0xA0) && (b != 0xED || b2 < 0xA0) then
          some ((b - 0xE0) * 0x1000 + (b2 - 0x80) * 0x40 + (b3 - 0x80), rest3)
        else none
      | _ => none
    else if b < 0xF5 then
      match rest with
      | b2 :: b3 :: b4 :: rest4 =>
        if isCont b2 && isCont b3 && isCont b4 &&
           (b != 0xF0 || b2 ≥ 0x90) && (b != 0xF4 || b2 < 0x90) then
          some ((b - 0xF0) * 0x40000 + (b2 - 0x80) * 0x1000 +
                (b3 - 0x80) * 0x40 + (b4 - 0x80), rest4)
        else none
      | _ => none
    else none

/-- Fuelled decoding loop; one unit of fuel per decoded character is
enough because every step consumes at least one byte. -/
def utf8DecodeAux : Nat → List Nat → Option (List Char)
  | _, [] => some []
  | 0, _ :: _ => none
  | fuel + 1, b :: rest =>
    match utf8DecodeOne (b :: rest) with
    | some (n, rest2) =>
      if h : n < 0xD800 ∨ (0xE000 ≤ n ∧ n < 0x110000) then
        (utf8DecodeAux fuel rest2).map (fun cs => Char.ofNatAux n (by
          simpa [UInt32.isValidChar, Nat.isValidChar] using h) :: cs)
      else none
    | none => none

/-- Rust `std::str::from_utf8` as used by the decoder: `some` of the decoded
string on well-formed input, `none` on malformed input. -/
def utf8Decode (bs : List Nat) : Option String :=
  (utf8DecodeAux bs.length bs).map String.mk

/-! ## JSON values and a `serde_json`-style text parser

`serde_json::from_str` parses the whole buffer as one JSON value
(trailing whitespace allowed, anything else is an error) and then runs
the derived per-struct deserializer.  Numbers are modelled as exact
rationals.  `\uXXXX` escapes are supported for non-surrogate code
points; surrogate-pair escapes are rejected (no claim exercises them). -/

inductive Json where
  | null : Json
  | bool (b : Bool) : Json
  | num (q : Rat) : Json
  | str (s : String) : Json
  | arr (elems : List Json) : Json
  | obj (fields : List (String × Json)) : Json

/-- JSON insignificant whitespace. -/
def jsonWs (c : Char) : Bool :=
  c == ' ' || c == '\t' || c == '\n' || c == '\r'

def skipWs (cs : List Char) : List Char := cs.dropWhile jsonWs

/-- The object-delimiter characters, by code point. -/
def charLBrace : Char := Char.ofNat 0x7B

def charRBrace : Char := Char.ofNat 0x7D

def hexVal (c : Char) : Option Nat :=
  if '0' ≤ c ∧ c ≤ '9' then some (c.toNat - 48)
  else if 'a' ≤ c ∧ c ≤ 'f' then some (c.toNat - 87)
  else if 'A' ≤ c ∧ c ≤ 'F' then some (c.toNat - 70)
  else none

/-- Scan a JSON string body (the opening quote already consumed);
returns the decoded characters and the input past the closing quote. -/
def scanString : List Char → Option (List Char × List Char)
  | [] => none
  | '"' :: rest => some ([], rest)
  | '\\' :: esc =>
    match esc with
    | 'u' :: h1 :: h2 :: h3 :: h4 :: rest =>
      match hexVal h1, hexVal h2, hexVal h3, hexVal h4 with
      | some v1, some v2, some v3, some v4 =>
        let n := ((v1 * 16 + v2) * 16 + v3) * 16 + v4
        if h : n < 0xD800 then
          (scanString rest).map (fun p =>
            (Char.ofNatAux n (Or.inl h) :: p.1, p.2))
        else if h2 : 0xE000 ≤ n ∧ n < 0x110000 then
          (scanString rest).map (fun p =>
            (Char.ofNatAux n (Or.inr h2) :: p.1, p.2))
        else none
      | _, _, _, _ => none
    | e :: rest =>
      let c? : Option Char :=
        if e == '"' then some '"'
        else if e == '\\' then some '\\'
        else if e == '/' then some '/'
        else if e == 'b' then some (Char.ofNat 8)
        else if e == 'f' then some (Char.ofNat 12)
        else if e == 'n' then some '\n'
        else if e == 'r' then some '\r'
        else if e == 't' then some '\t'
        else none
      match c? with
      | some c => (scanString rest).map (fun p => (c :: p.1, p.2))
      | none => none
    | [] => none
  | c :: rest =>
    if c.toNat < 0x20 then none
    else (scanString rest).map (fun p => (c :: p.1, p.2))

def isDigit (c : Char) : Bool := '0' ≤ c && c ≤ '9'

def digitsToNat (ds : List Char) : Nat :=
  ds.foldl (fun a c => a * 10 + (c.toNat - 48)) 0

/-- Scan a JSON number (RFC 8259 grammar: optional minus, integer part
with no leading zeros, optional fraction, optional exponent). -/
def scanNumber (cs : List Char) : Option (Rat × List Char) :=
  let (neg, cs1) : Bool × List Char :=
    match cs with
    | '-' :: t => (true, t)
    | _ => (false, cs)
  let intDs := cs1.takeWhile isDigit
  let cs2 := cs1.dropWhile isDigit
  if intDs.isEmpty then none
  else if intDs.length > 1 && intDs.headD '0' == '0' then none
  else
    let intPart : Rat := (digitsToNat intDs : Nat)
    let fracStep : Option (Rat × List Char) :=
      match cs2 with
      | '.' :: t =>
        let fracDs := t.takeWhile isDigit
        if fracDs.isEmpty then none
        else some (intPart + (digitsToNat fracDs : Nat) / ((10 : Rat) ^ fracDs.length),
                   t.dropWhile isDigit)
      | _ => some (intPart, cs2)
    match fracStep with
    | none => none
    | some (mag, cs3) =>
      let signedMag : Rat := if neg then -mag else mag
      match cs3 with
      | 'e' :: t => scanExponent signedMag t
      | 'E' :: t => scanExponent signedMag t
      | _ => some (signedMag, cs3)
where
  scanExponent (mag : Rat) (t : List Char) : Option (Rat × List Char) :=
    let (eneg, t1) : Bool × List Char :=
      match t with
      | '-' :: u => (true, u)
      | '+' :: u => (false, u)
      | _ => (false, t)
    let expDs := t1.takeWhile isDigit
    if expDs.isEmpty then none
    else
      let p : Rat := (10 : Rat) ^ digitsToNat expDs
      some (if eneg then mag / p else mag * p, t1.dropWhile isDigit)

mutual

/-- Parse one JSON value from the front of the input (leading
whitespace allowed).  Fuel decreases on every nested call; one unit per
opened composite is ample. -/
def parseValue : Nat → List Char → Option (Json × List Char)
  | 0, _ => none
  | fuel + 1, cs =>
    match skipWs cs with
    | [] => none
    | c :: rest =>
      if c == '"' then
        (scanString rest).map (fun p => (Json.str (String.mk p.1), p.2))
      else if c == charLBrace then
        parseMembers fuel (skipWs rest)
      else if c == '[' then
        parseElems fuel (skipWs rest)
      else if c == 't' then
        match rest with
        | 'r' :: 'u' :: 'e' :: r => some (Json.bool true, r)
        | _ => none
      else if c == 'f' then
        match rest with
        | 'a' :: 'l' :: 's' :: 'e' :: r => some (Json.bool false, r)
        | _ => none
      else if c == 'n' then
        match rest with
        | 'u' :: 'l' :: 'l' :: r => some (Json.null, r)
        | _ => none
      else
        (scanNumber (c :: rest)).map (fun p => (Json.num p.1, p.2))

/-- Parse the members of an object, the opening brace (and following
whitespace) already consumed. -/
def parseMembers : Nat → List Char → Option (Json × List Char)
  | 0, _ => none
  | fuel + 1, cs =>
    match cs with
    | c :: rest =>
      if c == charRBrace then some (Json.obj [], rest)
      else (parseMembersNE fuel cs).map (fun p => (Json.obj p.1, p.2))
    | [] => none

/-- Parse a nonempty comma-separated member list up to the closing
brace. -/
def parseMembersNE : Nat → List Char → Option (List (String × Json) × List Char)
  | 0, _ => none
  | fuel + 1, cs =>
    match cs with
    | '"' :: rest =>
      (scanString rest).bind (fun kp =>
        match skipWs kp.2 with
        | ':' :: r2 =>
          (parseValue fuel r2).bind (fun vp =>
            match skipWs vp.2 with
            | c4 :: r4 =>
              if c4 == ',' then
                (parseMembersNE fuel (skipWs r4)).map (fun mp =>
                  ((String.mk kp.1, vp.1) :: mp.1, mp.2))
              else if c4 == charRBrace then some ([(String.mk kp.1, vp.1)], r4)
              else none
            | [] => none)
        | _ => none)
    | _ => none

/-- Parse the elements of an array, the opening bracket (and following
whitespace) already consumed. -/
def parseElems : Nat → List Char → Option (Json × List Char)
  | 0, _ => none
  | fuel + 1, cs =>
    match cs with
    | ']' :: rest => some (Json.arr [], rest)
    | _ => (parseElemsNE fuel cs).map (fun p => (Json.arr p.1, p.2))

/-- Parse a nonempty comma-separated element list up to the closing
bracket. -/
def parseElemsNE : Nat → List Char → Option (List Json × List Char)
  | 0, _ => none
  | fuel + 1, cs =>
    (parseValue fuel cs).bind (fun vp =>
      match skipWs vp.2 with
      | ',' :: r => (parseElemsNE fuel (skipWs r)).map (fun ep =>
          (vp.1 :: ep.1, ep.2))
      | ']' :: r => some ([vp.1], r)
      | _ => none)

end

/-- Full-buffer `serde_json::from_str`, value level: the whole buffer must be one
JSON value followed only by whitespace. -/
def Json.parseFull (s : String) : Option Json :=
  (parseValue (s.data.length + 2) s.data).bind (fun p =>
    if skipWs p.2 = [] then some p.1 else none)

/-- Field lookup on an object (first occurrence); `none` on non-objects
and missing fields.  Derived serde deserializers ignore unknown fields. -/
def Json.getField : Json → String → Option Json
  | .obj fields, name => fields.lookup name
  | _, _ => none

/-- The key list of an object value, in emission order. -/
def Json.objKeys : Json → List String
  | .obj fields => fields.map Prod.fst
  | _ => []

def Json.asString : Json → Option String
  | .str s => some s
  | _ => none

def Json.asBool : Json → Option Bool
  | .bool b => some b
  | _ => none

/-- Deserialize an unsigned integer of width `w` bits: the number must
be integral and in range, as `serde_json` enforces. -/
def Json.asUInt (w : Nat) : Json → Option Nat
  | .num q => if q.den = 1 ∧ 0 ≤ q.num ∧ q.num < 2 ^ w then some q.num.toNat else none
  | _ => none

/-- Deserialize a signed 32-bit integer. -/
def Json.asI32 : Json → Option Int
  | .num q => if q.den = 1 ∧ -(2 ^ 31) ≤ q.num ∧ q.num < 2 ^ 31 then some q.num else none
  | _ => none

/-- An `Option` field of a serde struct: absent or `null` is `none`;
a present value must deserialize, else the whole struct fails. -/
def optField (j : Json) (name : String) (f : Json → Option α) : Option (Option α) :=
  match j.getField name with
  | none => some none
  | some .null => some none
  | some v => (f v).map some

/-! ## The program's data model (src/src/main.rs lines 28-109)

`u32`/`u64`/`u8` fields become `Nat`, `i32` becomes `Int`, `f32`
becomes `Rat` (only presence and exact literals matter to the claims). -/

/-- Source `struct Message` (lines 65-77): a transcript entry / wire message.
`role` and `content` are required; the rest are `Option`s. -/
structure Message where
  role : String
  content : String
  done : Option Bool := none
  total_duration : Option Nat := none
  load_duration : Option Nat := none
  prompt_eval_count : Option Nat := none
  prompt_eval_duration : Option Nat := none
  eval_count : Option Nat := none
  eval_duration : Option Nat := none
deriving DecidableEq

/-- Constructor `Message { role, content, ..Default::default() }`, the only way the
program ever constructs a transcript entry. -/
def mkMessage (role content : String) : Message :=
  { role := role, content := content }

/-- Source `struct LlamaResponse` (lines 79-86): one streamed chunk envelope. -/
structure LlamaResponse where
  model : String
  created_at : String
  message : Message
  done : Bool
deriving DecidableEq

/-- Source `struct ErrorResponse` (lines 97-101). -/
structure ErrorResponse where
  error : String
deriving DecidableEq

/-- Source `struct ChannelMessage` (lines 103-109): the unit sent from the
producer task to the foreground consumer. -/
structure ChannelMessage where
  done : Bool
  chunk : String
deriving DecidableEq

/-- Source `struct ModelOptions` (lines 28-63): ~30 independently optional
tuning parameters. -/
structure ModelOptions where
  num_keep : Option Nat := none
  seed : Option Nat := none
  num_predict : Option Nat := none
  top_k : Option Nat := none
  top_p : Option Rat := none
  tfs_z : Option Rat := none
  typical_p : Option Rat := none
  repeat_last_n : Option Nat := none
  temperature : Option Rat := none
  repeat_penalty : Option Rat := none
  presence_penalty : Option Rat := none
  frequency_penalty : Option Rat := none
  mirostat : Option Int := none
  mirostat_tau : Option Rat := none
  mirostat_eta : Option Rat := none
  penalize_newline : Option Bool := none
  stop : Option (List String) := none
  numa : Option Bool := none
  num_ctx : Option Nat := none
  num_batch : Option Nat := none
  num_gqa : Option Nat := none
  num_gpu : Option Nat := none
  main_gpu : Option Nat := none
  low_vram : Option Bool := none
  f16_kv : Option Bool := none
  vocab_only : Option Bool := none
  use_mmap : Option Bool := none
  use_mlock : Option Bool := none
  embedding_only : Option Bool := none
  rope_frequency_base : Option Rat := none
  rope_frequency_scale : Option Rat := none
  num_thread : Option Nat := none
deriving DecidableEq

/-- Source `struct LlamaRequest` (lines 88-95). -/
structure LlamaRequest where
  model : String
  stream : Bool
  messages : List Message
  options : Option ModelOptions := none

/-! ## Derived serde deserializers -/

/-- Derived `Deserialize for Message`: `role` and `content` must be
present strings, the optional fields accept absent/`null`, unknown
fields are ignored, any present field of the wrong type fails. -/
def Message.fromJson (j : Json) : Option Message := do
  let role ← (j.getField "role").bind Json.asString
  let content ← (j.getField "content").bind Json.asString
  let done ← optField j "done" Json.asBool
  let total_duration ← optField j "total_duration" (Json.asUInt 64)
  let load_duration ← optField j "load_duration" (Json.asUInt 64)
  let prompt_eval_count ← optField j "prompt_eval_count" (Json.asUInt 32)
  let prompt_eval_duration ← optField j "prompt_eval_duration" (Json.asUInt 64)
  let eval_count ← optField j "eval_count" (Json.asUInt 32)
  let eval_duration ← optField j "eval_duration" (Json.asUInt 64)
  pure { role, content, done, total_duration, load_duration,
         prompt_eval_count, prompt_eval_duration, eval_count, eval_duration }

/-- Derived `Deserialize for LlamaResponse`: all four fields required. -/
def LlamaResponse.fromJson (j : Json) : Option LlamaResponse := do
  let model ← (j.getField "model").bind Json.asString
  let created_at ← (j.getField "created_at").bind Json.asString
  let message ← (j.getField "message").bind Message.fromJson
  let done ← (j.getField "done").bind Json.asBool
  pure { model, created_at, message, done }

/-- Derived `Deserialize for ErrorResponse`: `error` required. -/
def ErrorResponse.fromJson (j : Json) : Option ErrorResponse := do
  let error ← (j.getField "error").bind Json.asString
  pure { error }

/-- Whole-buffer `serde_json::from_str::<LlamaResponse>`. -/
def LlamaResponse.fromStr (s : String) : Option LlamaResponse :=
  (Json.parseFull s).bind LlamaResponse.fromJson

/-- Whole-buffer `serde_json::from_str::<ErrorResponse>`. -/
def ErrorResponse.fromStr (s : String) : Option ErrorResponse :=
  (Json.parseFull s).bind ErrorResponse.fromJson

/-! ## Derived serde serializers

Without `skip_serializing_if`, the derived `Serialize` emits every
declared field in declaration order; an `Option` that is `None` is
emitted as JSON `null`. -/

def optJson (f : α → Json) : Option α → Json
  | none => Json.null
  | some v => f v

/-- Serialize an unsigned integer field. -/
def natJson (n : Nat) : Json := Json.num n

/-- Serialize a signed integer field. -/
def intJson (i : Int) : Json := Json.num i

def ModelOptions.toJson (o : ModelOptions) : Json :=
  Json.obj
    [("num_keep", optJson natJson o.num_keep),
     ("seed", optJson natJson o.seed),
     ("num_predict", optJson natJson o.num_predict),
     ("top_k", optJson natJson o.top_k),
     ("top_p", optJson Json.num o.top_p),
     ("tfs_z", optJson Json.num o.tfs_z),
     ("typical_p", optJson Json.num o.typical_p),
     ("repeat_last_n", optJson natJson o.repeat_last_n),
     ("temperature", optJson Json.num o.temperature),
     ("repeat_penalty", optJson Json.num o.repeat_penalty),
     ("presence_penalty", optJson Json.num o.presence_penalty),
     ("frequency_penalty", optJson Json.num o.frequency_penalty),
     ("mirostat", optJson intJson o.mirostat),
     ("mirostat_tau", optJson Json.num o.mirostat_tau),
     ("mirostat_eta", optJson Json.num o.mirostat_eta),
     ("penalize_newline", optJson Json.bool o.penalize_newline),
     ("stop", optJson (fun l => Json.arr (l.map Json.str)) o.stop),
     ("numa", optJson Json.bool o.numa),
     ("num_ctx", optJson natJson o.num_ctx),
     ("num_batch", optJson natJson o.num_batch),
     ("num_gqa", optJson natJson o.num_gqa),
     ("num_gpu", optJson natJson o.num_gpu),
     ("main_gpu", optJson natJson o.main_gpu),
     ("low_vram", optJson Json.bool o.low_vram),
     ("f16_kv", optJson Json.bool o.f16_kv),
     ("vocab_only", optJson Json.bool o.vocab_only),
     ("use_mmap", optJson Json.bool o.use_mmap),
     ("use_mlock", optJson Json.bool o.use_mlock),
     ("embedding_only", optJson Json.bool o.embedding_only),
     ("rope_frequency_base", optJson Json.num o.rope_frequency_base),
     ("rope_frequency_scale", optJson Json.num o.rope_frequency_scale),
     ("num_thread", optJson natJson o.num_thread)]

/-- The declaration-order key list of `ModelOptions`. -/
def modelOptionsKeys : List String :=
  ["num_keep", "seed", "num_predict", "top_k", "top_p", "tfs_z",
   "typical_p", "repeat_last_n", "temperature", "repeat_penalty",
   "presence_penalty", "frequency_penalty", "mirostat", "mirostat_tau",
   "mirostat_eta", "penalize_newline", "stop", "numa", "num_ctx",
   "num_batch", "num_gqa", "num_gpu", "main_gpu", "low_vram", "f16_kv",
   "vocab_only", "use_mmap", "use_mlock", "embedding_only",
   "rope_frequency_base", "rope_frequency_scale", "num_thread"]

def Message.toJson (m : Message) : Json :=
  Json.obj
    [("role", Json.str m.role),
     ("content", Json.str m.content),
     ("done", optJson Json.bool m.done),
     ("total_duration", optJson natJson m.total_duration),
     ("load_duration", optJson natJson m.load_duration),
     ("prompt_eval_count", optJson natJson m.prompt_eval_count),
     ("prompt_eval_duration", optJson natJson m.prompt_eval_duration),
     ("eval_count", optJson natJson m.eval_count),
     ("eval_duration", optJson natJson m.eval_duration)]

def LlamaRequest.toJson (r : LlamaRequest) : Json :=
  Json.obj
    [("model", Json.str r.model),
     ("stream", Json.bool r.stream),
     ("messages", Json.arr (r.messages.map Message.toJson)),
     ("options", optJson ModelOptions.toJson r.options)]

/-! ## The streaming decoder (`individual_request_ch`, lines 165-220)

The `write_function` closure runs once per received body chunk and
always sends exactly one `ChannelMessage`.  The source file's sentinel
literals are the character sequences U+201A U+00F2 U+2020 (envelope
decode failure) and U+00D4 U+00C5 U+00B1 (UTF-8 decode failure). -/

/-- The chunk sent when the bytes fail `std::str::from_utf8` (line 206). -/
def badUtf8Sentinel : String := "ÔÅ±"

/-- The chunk sent when the text fails to parse as a `LlamaResponse`
(line 198). -/
def badEnvelopeSentinel : String := "‚ò†"

/-- The body of the `write_function` closure (lines 182-212): decode one
raw chunk into the single `ChannelMessage` it sends. -/
def decodeChunk (bytes : List Nat) : ChannelMessage :=
  match utf8Decode bytes with
  | some utf =>
    match LlamaResponse.fromStr utf with
    | some resp => { done := resp.done, chunk := resp.message.content }
    | none => { done := false, chunk := badEnvelopeSentinel }
  | none => { done := false, chunk := badUtf8Sentinel }

/-- The producer's whole channel traffic for a turn: the transport hands
chunks to `write_function` in arrival order and the mpsc channel is
FIFO, so the consumer sees one decoded delta per chunk, in order. -/
def producerDeltas (chunks : List (List Nat)) : List ChannelMessage :=
  chunks.map decodeChunk

/-- The content a chunk contributes when (and only when) it decodes
successfully as a response envelope. -/
def successContent (bytes : List Nat) : Option String :=
  (utf8Decode bytes).bind (fun utf =>
    (LlamaResponse.fromStr utf).map (fun resp => resp.message.content))

/-! ## The consumer loop and `request_single_message` (lines 282-317) -/

/-- The foreground polling loop of `request_single_message` (lines
292-307): append each received delta's text to `full_message`, break
after the first delta with `done == true`.  If no such delta ever
arrives the loop polls forever; that divergence is `none`. -/
def consumeLoop : List ChannelMessage → String → Option String
  | [], _ => none
  | m :: rest, acc =>
    let acc2 := acc ++ m.chunk
    if m.done then some acc2 else consumeLoop rest acc2

/-- The transcript append after the loop (lines 312-316): push an
`assistant` message holding `full_message.trim()`. -/
def appendAssistant (messages : List Message) (full_message : String) : List Message :=
  messages ++ [mkMessage "assistant" (rustTrim full_message)]

/-- Function `request_single_message` as a function of the transport's chunk
sequence: run the producer/decoder, drain the channel, then append the
trimmed accumulator.  `none` models the never-terminating poll. -/
def request_single_message (messages : List Message) (chunks : List (List Nat)) :
    Option (List Message) :=
  (consumeLoop (producerDeltas chunks) "").map (appendAssistant messages)

/-! ## The non-streaming path (`individual_request`, lines 111-163) -/

/-- Outcome of `individual_request`, at the granularity the code
distinguishes: transport error, panic on non-UTF-8 body (`.unwrap()` on
`from_utf8`, line 141), service-reported error envelope, undecodable
body, or the response content. -/
inductive ReqResult where
  | transportErr : ReqResult
  | utf8Panic : ReqResult
  | serviceErr (error : String) : ReqResult
  | decodeErr : ReqResult
  | ok (content : String) : ReqResult
deriving DecidableEq

/-- Function `individual_request` applied to a completed response body (lines
141-162): UTF-8 decode, then the `ErrorResponse` check FIRST, then the
`LlamaResponse` decode. -/
def individual_request (body : List Nat) : ReqResult :=
  match utf8Decode body with
  | none => .utf8Panic
  | some decoded =>
    match ErrorResponse.fromStr decoded with
    | some val => .serviceErr val.error
    | none =>
      match LlamaResponse.fromStr decoded with
      | some r => .ok r.message.content
      | none => .decodeErr

/-- The request object built by `make_request` (lines 224-232): options
present with only `temperature: Some(0.8)` set. -/
def makeRequestOptions : ModelOptions :=
  { temperature := some ((8 : Rat) / 10) }

def makeRequestObject (model_name prompt : String) : LlamaRequest :=
  { model := model_name, stream := true,
    messages := [mkMessage "user" prompt],
    options := some makeRequestOptions }

/-! ## The REPL loop (`request_loop`, lines 320-418)

One iteration of the loop is modelled as a function of the current
transcript, the raw line read (newline included, exactly as
`read_line` delivers it), the remaining input lines (used by `#system`
and by multi-line capture), and the accumulator string the streamed
turn would produce.  `read_line` at end of input yields `""`. -/

/-- What one loop iteration did, besides updating the transcript. -/
structure StepResult where
  messages : List Message
  /-- whether `request_single_message` was invoked this iteration -/
  requested : Bool
  /-- whether the "No conversation history." warning was printed -/
  warnedNoHistory : Bool
  /-- whether the loop was exited -/
  exited : Bool
deriving DecidableEq

/-- Multi-line capture (lines 391-406): read lines until one whose
trimmed form ends with the triple-quote delimiter; that line
contributes its text minus its last four characters (`rl[..rlen-4]`),
every earlier line is appended whole.  `none` models both input
exhaustion (the loop would keep polling empty lines forever) and the
byte-index underflow panic on a closing line shorter than 4 bytes. -/
def captureLines : List String → Option String
  | [] => none
  | rl :: rest =>
    if strEndsWith (rustTrim rl) "\"\"\"" then
      if rl.length < 4 then none
      else some (⟨rl.data.take (rl.length - 4)⟩)
    else (captureLines rest).map (fun body => rl ++ body)

/-- The catch-all arm's prompt assembly (lines 383-407): a raw line
opening with the triple-quote delimiter starts multi-line capture on
the following lines; anything else is the prompt as read (trailing
newline included). -/
def assemblePrompt (line : String) (rest : List String) : Option String :=
  if strStartsWith line "\"\"\"" then
    (captureLines rest).map (fun body => (⟨line.data.drop 3⟩ : String) ++ body)
  else some line

/-- One iteration of `request_loop` (lines 341-416).  The `match` on
`prompt[..].trim()` becomes the literal comparison chain below;
`req.messages.pop()` is `List.dropLast`. -/
def replStep (messages : List Message) (line : String) (rest : List String)
    (response : String) : Option StepResult :=
  let cmd := rustTrim line
  if cmd = "#help" then some ⟨messages, false, false, false⟩
  else if cmd = "\x23exit" then some ⟨messages, false, false, true⟩
  else if cmd = "#quit" then some ⟨messages, false, false, true⟩
  else if cmd = "#clear" then some ⟨messages, false, false, false⟩
  else if cmd = "#status" then some ⟨messages, false, false, false⟩
  else if cmd = "#reset" then some ⟨[], false, false, false⟩
  else if cmd = "#system" then
    some ⟨[mkMessage "system" (rustTrim (rest.headD ""))], false, false, false⟩
  else if cmd = "#repeat" then
    let popped := messages.dropLast
    if popped.length > 0 then
      some ⟨appendAssistant popped response, true, false, false⟩
    else
      some ⟨popped, false, true, false⟩
  else
    match assemblePrompt line rest with
    | some prompt =>
      some ⟨appendAssistant (messages ++ [mkMessage "user" prompt]) response,
            true, false, false⟩
    | none => none

/-! ## Concrete inputs used by the claims -/

/-- The first mocked streaming chunk of the spec's scenario. -/
def c1chunk1 : String := "\x7b\"message\":\x7b\"content\":\"Hi\"\x7d,\"done\":false\x7d"

/-- The second mocked streaming chunk of the spec's scenario. -/
def c1chunk2 : String := "\x7b\"message\":\x7b\"content\":\"!\"\x7d,\"done\":true\x7d"

/-- A complete chunk envelope carrying `"Hi"`, `done:false` (all fields
the derived `LlamaResponse`/`Message` deserializers require). -/
def c1full1 : String :=
  "\x7b\"model\":\"llama\",\"created_at\":\"t0\",\"message\":\x7b\"role\":\"assistant\",\"content\":\"Hi\"\x7d,\"done\":false\x7d"

/-- A complete chunk envelope carrying `"!"`, `done:true`. -/
def c1full2 : String :=
  "\x7b\"model\":\"llama\",\"created_at\":\"t1\",\"message\":\x7b\"role\":\"assistant\",\"content\":\"!\"\x7d,\"done\":true\x7d"

/-- The spec's mocked error-envelope body. -/
def errBody : String := "\x7b\"error\":\"model not found\"\x7d"

end Llama

namespace Llama

/-! # Claims -/

/-- C1, counterexample.  The spec's mocked chunks
`(c1chunk1, c1chunk2)` do not satisfy the derived deserializer:
`LlamaResponse` requires `model` and `created_at` and the inner
`Message` requires `role`, so both chunks decode to the bad-envelope
sentinel with `done=false`; the consumer loop therefore never sees a
final delta, the turn never completes, and no assistant message is
appended — contradicting the claimed single `"Hi!"` entry. -/
theorem C1_counterexample :
    producerDeltas [strBytes c1chunk1, strBytes c1chunk2] =
      [⟨false, badEnvelopeSentinel⟩, ⟨false, badEnvelopeSentinel⟩] ∧
    request_single_message [] [strBytes c1chunk1, strBytes c1chunk2] = none :=
  ⟨rfl, rfl⟩

/-- C1, amended: for a streaming turn whose transport delivers two
COMPLETE chunk envelopes (`model`, `created_at`, `message.role`
included) carrying `"Hi"`/`done:false` then `"!"`/`done:true`, one full
turn appends exactly one new message to the transcript, with role
`assistant` and content `"Hi!"`. -/
theorem C1_amended_full_envelope_turn :
    ∀ messages : List Message,
      request_single_message messages [strBytes c1full1, strBytes c1full2] =
        some (messages ++ [mkMessage "assistant" "Hi!"]) := by
  intro messages
  rfl

/-- C2, counterexample.  In the streaming decoder there is no
error-envelope check at all: a chunk that matches the error envelope
`(error: string)` is still emitted on the channel as a content delta
(carrying the bad-envelope sentinel), not surfaced as a request
failure. -/
theorem C2_counterexample :
    ErrorResponse.fromStr errBody = some ⟨"model not found"⟩ ∧
    decodeChunk (strBytes errBody) = ⟨false, badEnvelopeSentinel⟩ :=
  ⟨rfl, rfl⟩

/-- C2, amended: the error-envelope-first check exists only in the
NON-STREAMING path, where it runs once against the complete buffer,
before the chat-envelope decode; the streaming decoder performs no
error-envelope check and turns an error payload into an ordinary
(bad-envelope sentinel) delta. -/
theorem C2_amended_error_check_nonstreaming_only :
    (∀ (body : List Nat) (s : String) (e : ErrorResponse),
      utf8Decode body = some s → ErrorResponse.fromStr s = some e →
      individual_request body = .serviceErr e.error) ∧
    (∀ (bytes : List Nat) (s : String) (e : ErrorResponse),
      utf8Decode bytes = some s → ErrorResponse.fromStr s = some e →
      LlamaResponse.fromStr s = none →
      decodeChunk bytes = ⟨false, badEnvelopeSentinel⟩) := by
  constructor
  · intro body s e h1 h2
    simp [individual_request, h1, h2]
  · intro bytes s e h1 h2 h3
    simp [decodeChunk, h1, h3]

/-- C2, witness: the amended theorem applied to the concrete error body. -/
theorem C2_witness :
    individual_request (strBytes errBody) = .serviceErr "model not found" ∧
    decodeChunk (strBytes errBody) = ⟨false, badEnvelopeSentinel⟩ :=
  ⟨C2_amended_error_check_nonstreaming_only.1 (strBytes errBody) errBody
     ⟨"model not found"⟩ rfl rfl,
   C2_amended_error_check_nonstreaming_only.2 (strBytes errBody) errBody
     ⟨"model not found"⟩ rfl rfl rfl⟩

/-- C3: for every raw chunk, non-UTF-8 bytes yield exactly one delta
carrying the bad-utf8 sentinel with `isFinal=false`; UTF-8 bytes that
do not parse as a response envelope yield exactly one delta carrying
the distinct bad-envelope sentinel with `isFinal=false`; the two
sentinels differ; and the producer keeps processing every later chunk
(each chunk contributes exactly its own delta wherever it sits in the
stream). -/
theorem C3_decode_failure_policy :
    ∀ bytes : List Nat,
      (utf8Decode bytes = none → decodeChunk bytes = ⟨false, badUtf8Sentinel⟩) ∧
      (∀ s, utf8Decode bytes = some s → LlamaResponse.fromStr s = none →
        decodeChunk bytes = ⟨false, badEnvelopeSentinel⟩) ∧
      badUtf8Sentinel ≠ badEnvelopeSentinel ∧
      (∀ pre post, producerDeltas (pre ++ bytes :: post) =
        producerDeltas pre ++ decodeChunk bytes :: producerDeltas post) := by
  intro bytes
  refine ⟨fun h => by simp [decodeChunk, h],
          fun s h1 h2 => by simp [decodeChunk, h1, h2],
          by decide,
          fun pre post => by simp [producerDeltas]⟩

/-- C3, witness: the policy applied to a non-UTF-8 chunk (`0xFF`) and
to a UTF-8 chunk that is not an envelope (`"hi"`). -/
theorem C3_witness :
    decodeChunk [0xFF] = ⟨false, badUtf8Sentinel⟩ ∧
    decodeChunk (strBytes "hi") = ⟨false, badEnvelopeSentinel⟩ :=
  ⟨(C3_decode_failure_policy [0xFF]).1 rfl,
   (C3_decode_failure_policy (strBytes "hi")).2.1 "hi" rfl rfl⟩

/-- A chunk that decodes successfully contributes its decoded message
content as the text of its delta. -/
theorem decodeChunk_of_success {b : List Nat} {c : String}
    (h : successContent b = some c) : (decodeChunk b).chunk = c := by
  unfold successContent at h
  unfold decodeChunk
  cases hu : utf8Decode b with
  | none => rw [hu] at h; simp at h
  | some s =>
    rw [hu] at h
    replace h : Option.map (fun resp => resp.message.content)
        (LlamaResponse.fromStr s) = some c := h
    cases hl : LlamaResponse.fromStr s with
    | none => rw [hl] at h; simp at h
    | some r =>
      rw [hl] at h
      simp at h
      simp [hl, h]

/-- The in-order delta texts of the successfully decoded chunks equal
the in-order decoded contents. -/
theorem producer_success_texts (chunks : List (List Nat)) :
    (chunks.filter (fun b => (successContent b).isSome)).map
        (fun b => (decodeChunk b).chunk) =
      chunks.filterMap successContent := by
  induction chunks with
  | nil => rfl
  | cons b rest ih =>
    cases hb : successContent b with
    | none =>
      simp only [List.filter_cons, List.filterMap_cons, hb, Option.isSome_none,
        Bool.false_eq_true, if_false]
      exact ih
    | some c =>
      simp only [List.filter_cons, List.filterMap_cons, hb, Option.isSome_some,
        if_true, List.map_cons]
      rw [decodeChunk_of_success hb, ih]

/-- C4: the producer sends exactly one delta per chunk, in arrival
order (the channel is FIFO, modelled by the list order), and the
concatenation of the texts of the deltas belonging to successfully
decoded chunks equals the concatenation of those chunks' decoded
message contents — no reordering, duplication, or loss. -/
theorem C4_concatenation_invariant :
    ∀ chunks : List (List Nat),
      (producerDeltas chunks).length = chunks.length ∧
      (chunks.filter (fun b => (successContent b).isSome)).map
          (fun b => (decodeChunk b).chunk) =
        chunks.filterMap successContent ∧
      String.join ((chunks.filter (fun b => (successContent b).isSome)).map
          (fun b => (decodeChunk b).chunk)) =
        String.join (chunks.filterMap successContent) := by
  intro chunks
  exact ⟨by simp [producerDeltas], producer_success_texts chunks,
    congrArg String.join (producer_success_texts chunks)⟩

/-- C5, counterexample.  `request_single_message` appends
`full_message.trim()`, and Rust's `trim` strips BOTH ends: for the
accumulator `" hi"` the appended content is `"hi"`, not the
leading-whitespace-preserving `" hi"` the claim requires. -/
theorem C5_counterexample :
    appendAssistant [] " hi" = [mkMessage "assistant" "hi"] ∧
    trimTrailingOnlySpec " hi" = " hi" ∧
    mkMessage "assistant" "hi" ≠ mkMessage "assistant" (trimTrailingOnlySpec " hi") :=
  ⟨rfl, rfl, by decide⟩

/-- C5, amended: the appended assistant content equals the accumulator
with BOTH leading and trailing whitespace stripped (interior whitespace
is preserved: the trimmed string is a contiguous segment of the
accumulator, with only whitespace removed at either end). -/
theorem C5_amended_trim_strips_both_ends :
    ∀ (messages : List Message) (acc : String),
      appendAssistant messages acc =
        messages ++ [mkMessage "assistant" (rustTrim acc)] ∧
      ∃ lead trail,
        acc.data = lead ++ ((rustTrim acc).data ++ trail) ∧
        (∀ c ∈ lead, isRustWs c) ∧ (∀ c ∈ trail, isRustWs c) := by
  intro messages acc
  refine ⟨rfl, acc.data.takeWhile isRustWs,
    ((acc.data.dropWhile isRustWs).reverse.takeWhile isRustWs).reverse,
    ?_, ?_, ?_⟩
  · have hmid : acc.data.dropWhile isRustWs =
        (rustTrim acc).data ++
          ((acc.data.dropWhile isRustWs).reverse.takeWhile isRustWs).reverse := by
      calc acc.data.dropWhile isRustWs
          = ((acc.data.dropWhile isRustWs).reverse).reverse :=
            (List.reverse_reverse _).symm
        _ = (((acc.data.dropWhile isRustWs).reverse.takeWhile isRustWs) ++
              ((acc.data.dropWhile isRustWs).reverse.dropWhile isRustWs)).reverse := by
            rw [List.takeWhile_append_dropWhile]
        _ = (rustTrim acc).data ++
              ((acc.data.dropWhile isRustWs).reverse.takeWhile isRustWs).reverse := by
            rw [List.reverse_append]
            rfl
    conv_lhs =>
      rw [← List.takeWhile_append_dropWhile (p := isRustWs) (l := acc.data), hmid]
  · exact fun c hc => List.mem_takeWhile_imp hc
  · intro c hc
    exact List.mem_takeWhile_imp (List.mem_reverse.mp hc)

/-- C5, witness: the amended statement instantiated at a concrete
accumulator. -/
theorem C5_witness :
    appendAssistant [] " hi " = [] ++ [mkMessage "assistant" (rustTrim " hi ")] :=
  (C5_amended_trim_strips_both_ends [] " hi ").1

/-- C6, counterexample.  `ModelOptions` derives `Serialize` without
`skip_serializing_if`, so absent parameters are NOT omitted: the
options object built by `make_request` (only `temperature` set)
serializes inside the request with all 32 keys, `num_keep` (and every
other unset parameter) carrying an explicit `null`. -/
theorem C6_counterexample :
    (makeRequestObject "m" "p").toJson.getField "options" =
      some (ModelOptions.toJson makeRequestOptions) ∧
    Json.objKeys (ModelOptions.toJson makeRequestOptions) = modelOptionsKeys ∧
    modelOptionsKeys ≠ ["temperature"] ∧
    (ModelOptions.toJson makeRequestOptions).getField "num_keep" = some Json.null :=
  ⟨rfl, rfl, by decide, rfl⟩

/-- C6, amended: the options object is a sparse mapping of ~30
independently present-or-absent parameters, but serialization emits
every parameter key regardless: an absent parameter appears as an
explicit `null` entry (keys are never omitted), while a present one
carries its value. -/
theorem C6_amended_absent_fields_serialize_as_null :
    ∀ o : ModelOptions,
      Json.objKeys (ModelOptions.toJson o) = modelOptionsKeys ∧
      (o.num_keep = none →
        (ModelOptions.toJson o).getField "num_keep" = some Json.null) ∧
      (∀ q, o.temperature = some q →
        (ModelOptions.toJson o).getField "temperature" = some (Json.num q)) := by
  intro o
  refine ⟨rfl, fun h => ?_, fun q h => ?_⟩
  · have hk : (ModelOptions.toJson o).getField "num_keep" =
        some (optJson natJson o.num_keep) := rfl
    rw [hk, h]
    rfl
  · have hk : (ModelOptions.toJson o).getField "temperature" =
        some (optJson Json.num o.temperature) := rfl
    rw [hk, h]
    rfl

/-- C6, witness: the amended statement applied to the options value
`make_request` actually builds. -/
theorem C6_witness :
    Json.objKeys (ModelOptions.toJson makeRequestOptions) = modelOptionsKeys ∧
    (ModelOptions.toJson makeRequestOptions).getField "num_keep" = some Json.null ∧
    (ModelOptions.toJson makeRequestOptions).getField "temperature" =
      some (Json.num ((8 : Rat) / 10)) :=
  ⟨(C6_amended_absent_fields_serialize_as_null makeRequestOptions).1,
   (C6_amended_absent_fields_serialize_as_null makeRequestOptions).2.1 rfl,
   (C6_amended_absent_fields_serialize_as_null makeRequestOptions).2.2
     ((8 : Rat) / 10) rfl⟩

/-- C7, counterexample.  `#repeat` pops the most recent transcript
entry while leaving earlier entries in place (and then appends the
regenerated reply): from `[system "s", assistant "old"]` it produces
`[system "s", assistant "new"]`, which is neither an append-extension
of the old transcript nor a transcript-independent wholesale
replacement (starting from `[user "alt", assistant "old"]` the same
command keeps `user "alt"`). -/
theorem C7_counterexample :
    (replStep [mkMessage "system" "s", mkMessage "assistant" "old"]
        "#repeat\n" [] "new").map StepResult.messages =
      some [mkMessage "system" "s", mkMessage "assistant" "new"] ∧
    List.isPrefixOf [mkMessage "system" "s", mkMessage "assistant" "old"]
      [mkMessage "system" "s", mkMessage "assistant" "new"] = false ∧
    (replStep [mkMessage "user" "alt", mkMessage "assistant" "old"]
        "#repeat\n" [] "new").map StepResult.messages =
      some [mkMessage "user" "alt", mkMessage "assistant" "new"] ∧
    [mkMessage "system" "s", mkMessage "assistant" "new"] ≠
      [mkMessage "user" "alt", mkMessage "assistant" "new"] :=
  ⟨rfl, rfl, rfl, by decide⟩

/-- C7, amended: in every state, transcript messages are immutable
values in strict append order, and each REPL command's transcript
effect is one of: appending a suffix, removing the most recent entry
and then appending a suffix (`#repeat`), resetting to empty
(`#reset`), or replacing the transcript by a single fresh system
message (`#system`). -/
theorem C7_amended_transcript_effects :
    ∀ (messages : List Message) (line : String) (rest : List String)
      (response : String) (r : StepResult),
      replStep messages line rest response = some r →
      (∃ s, r.messages = messages ++ s) ∨
      (∃ s, r.messages = messages.dropLast ++ s) ∨
      r.messages = [] ∨
      (∃ c, r.messages = [mkMessage "system" c]) := by
  intro messages line rest response r h
  simp only [replStep] at h
  split_ifs at h
  · exact Or.inl ⟨[], by cases h; exact (List.append_nil _).symm⟩
  · exact Or.inl ⟨[], by cases h; exact (List.append_nil _).symm⟩
  · exact Or.inl ⟨[], by cases h; exact (List.append_nil _).symm⟩
  · exact Or.inl ⟨[], by cases h; exact (List.append_nil _).symm⟩
  · exact Or.inl ⟨[], by cases h; exact (List.append_nil _).symm⟩
  · exact Or.inr (Or.inr (Or.inl (by cases h; rfl)))
  · exact Or.inr (Or.inr (Or.inr ⟨_, by cases h; rfl⟩))
  · exact Or.inr (Or.inl ⟨[mkMessage "assistant" (rustTrim response)],
      by cases h; rfl⟩)
  · exact Or.inr (Or.inl ⟨[], by cases h; exact (List.append_nil _).symm⟩)
  · cases hp : assemblePrompt line rest with
    | some p =>
      rw [hp] at h
      cases h
      exact Or.inl ⟨[mkMessage "user" p, mkMessage "assistant" (rustTrim response)],
        by simp [appendAssistant]⟩
    | none => rw [hp] at h; cases h

/-- C7, witness: the amended effect classification applied to a
concrete `#help` step. -/
theorem C7_witness :
    (∃ s, (StepResult.mk [mkMessage "system" "s"] false false false).messages =
      [mkMessage "system" "s"] ++ s) ∨
    (∃ s, (StepResult.mk [mkMessage "system" "s"] false false false).messages =
      [mkMessage "system" "s"].dropLast ++ s) ∨
    (StepResult.mk [mkMessage "system" "s"] false false false).messages = [] ∨
    (∃ c, (StepResult.mk [mkMessage "system" "s"] false false false).messages =
      [mkMessage "system" c]) :=
  C7_amended_transcript_effects [mkMessage "system" "s"] "#help\n" [] ""
    ⟨[mkMessage "system" "s"], false, false, false⟩ rfl

/-- C8: on the two-line input `"""hello` / `world"""`, the REPL submits
exactly one user message whose content is `"hello\nworld"` (delimiters
stripped, interior newline preserved), followed by the turn's assistant
reply. -/
theorem C8_triple_quote_multiline :
    ∀ (messages : List Message) (response : String),
      replStep messages "\"\"\"hello\n" ["world\"\"\"\n"] response =
        some ⟨messages ++ [mkMessage "user" "hello\nworld",
                           mkMessage "assistant" (rustTrim response)],
              true, false, false⟩ := by
  intro messages response
  have h : replStep messages "\"\"\"hello\n" ["world\"\"\"\n"] response =
      some ⟨(messages ++ [mkMessage "user" "hello\nworld"]) ++
              [mkMessage "assistant" (rustTrim response)],
            true, false, false⟩ := rfl
  simpa using h

/-- C9: `#repeat` on a transcript holding exactly one system message
prints the no-history warning and performs no request
(`request_single_message` is not invoked), leaving the popped-empty
transcript behind. -/
theorem C9_repeat_single_system_message :
    ∀ (content : String) (rest : List String) (response : String),
      replStep [mkMessage "system" content] "#repeat\n" rest response =
        some ⟨[], false, true, false⟩ := by
  intro content rest response
  rfl

/-- The `#repeat` arm of `request_loop`, isolated: pop first, then
request only if something remains. -/
theorem replStep_repeat (messages : List Message) (rest : List String)
    (response : String) :
    replStep messages "#repeat\n" rest response =
      if messages.dropLast.length > 0 then
        some ⟨appendAssistant messages.dropLast response, true, false, false⟩
      else some ⟨messages.dropLast, false, true, false⟩ := rfl

/-- C10: `#repeat` removes the most recent entry before checking for
remaining history — any one-message transcript (a seeded system message
included) is left empty even on the warning path, with no request made;
and the transcript is guaranteed unchanged by `#repeat` (for every
possible regenerated response) exactly when it was already empty. -/
theorem C10_repeat_pops_before_check :
    (∀ (m : Message) (rest : List String) (response : String),
      replStep [m] "#repeat\n" rest response = some ⟨[], false, true, false⟩) ∧
    (∀ (rest : List String) (response : String),
      replStep [] "#repeat\n" rest response = some ⟨[], false, true, false⟩) ∧
    (∀ (t : List Message) (rest : List String),
      (∀ response, (replStep t "#repeat\n" rest response).map StepResult.messages
        = some t) ↔ t = []) := by
  refine ⟨fun m rest response => rfl, fun rest response => rfl,
    fun t rest => ⟨?_, ?_⟩⟩
  · intro h
    match t with
    | [] => rfl
    | [m] =>
      have h0 : (replStep [m] "#repeat\n" rest "").map StepResult.messages =
          some [] := rfl
      have := h0.symm.trans (h "")
      simp at this
    | a :: b :: t2 =>
      have hlen : (a :: b :: t2).dropLast.length > 0 := by
        simp [List.length_dropLast]
      have step : ∀ response,
          (replStep (a :: b :: t2) "#repeat\n" rest response).map
              StepResult.messages =
            some ((a :: b :: t2).dropLast ++
              [mkMessage "assistant" (rustTrim response)]) := by
        intro response
        rw [replStep_repeat, if_pos hlen]
        rfl
      have ha := (step "a").symm.trans (h "a")
      have hb := (step "b").symm.trans (h "b")
      rw [← hb] at ha
      simp only [Option.some.injEq] at ha
      have hcl := List.append_cancel_left ha
      simp [mkMessage] at hcl
      exact absurd hcl (by decide)
  · rintro rfl response
    rfl

/-- C10, witness: the unconditional pop applied to a one-entry
transcript, and the empty-transcript fixed point. -/
theorem C10_witness :
    replStep [mkMessage "system" "seed"] "#repeat\n" [] "x" =
      some ⟨[], false, true, false⟩ ∧
    replStep [] "#repeat\n" [] "x" = some ⟨[], false, true, false⟩ :=
  ⟨C10_repeat_pops_before_check.1 (mkMessage "system" "seed") [] "x",
   C10_repeat_pops_before_check.2.1 [] "x"⟩

end Llama
